import Mathlib

/-!
Verification development for the ArProyect augmented-reality game.

The repository ships the headers `GameMode.h`, `Marker.h`, `Renderer.h` and
the rendering glue `Renderer.cpp`.  The implementation files (`GameMode.cpp`,
`Marker.cpp`) and the shared type definitions (`Common.h`) are not in the
source tree, so the behaviour of `GameMode::Update`, `Marker::DetectYourself`
and the distance helpers is modelled here from the design document, while the
data layout (field names, enum members, signatures) follows the headers.
Floating-point scalars are modelled by `ℚ` (for state and computations) and
`ℝ` (for the square-root based distances).
-/

namespace ArProyect

/-- Modelled from the spec: `Common.h` is missing; a `Vector` is the x, y, z
components of a position in millimetres (spec 4.1, "Position"). -/
structure Vec3 where
  x : ℚ
  y : ℚ
  z : ℚ
deriving DecidableEq

def Vec3.add (a b : Vec3) : Vec3 :=
  ⟨a.x + b.x, a.y + b.y, a.z + b.z⟩

def Vec3.sub (a b : Vec3) : Vec3 :=
  ⟨a.x - b.x, a.y - b.y, a.z - b.z⟩

def Vec3.dot (a b : Vec3) : ℚ :=
  a.x * b.x + a.y * b.y + a.z * b.z

def Vec3.normSq (v : Vec3) : ℚ :=
  v.dot v

/-- Squared Euclidean distance between two positions, in mm². -/
def distSq (a b : Vec3) : ℚ :=
  (a.sub b).normSq

/-- Modelled from the spec: `Common.h` is missing; a `Transform` is a rigid 3D
pose — a rotation (three row vectors) plus a translation, expressed in the
camera coordinate frame (spec 3, "Transform"). -/
structure Transform where
  r0 : Vec3
  r1 : Vec3
  r2 : Vec3
  translation : Vec3
deriving DecidableEq

def Transform.applyToVec (t : Transform) (v : Vec3) : Vec3 :=
  ⟨t.r0.dot v, t.r1.dot v, t.r2.dot v⟩

/-- The camera sits at the origin of the coordinate frame (spec 4.1). -/
def cameraTransform : Transform :=
  { r0 := ⟨1, 0, 0⟩, r1 := ⟨0, 1, 0⟩, r2 := ⟨0, 0, 1⟩,
    translation := ⟨0, 0, 0⟩ }

/-- Modelled from the spec: `Common.h` is missing; a `Center` is the 2D
displacement offset of a marker inside a multi-pattern composite. -/
structure Center where
  x : ℚ
  y : ℚ
deriving DecidableEq

/-- Modelled from the spec: the detection collaborator produces, once per
frame, a list of candidates with an id and a raw pose (spec 6); this stands
for the `ARMarkerInfo` records handed to `Marker::DetectYourself`. -/
structure ARMarkerInfo where
  id : Int
  pose : Transform
deriving DecidableEq

/-- Marker data, following the private section of `Marker.h`: transform,
displacement, id, size, visibility. -/
structure Marker where
  transform : Transform
  displacement : Center
  id : Int
  size : ℚ
  isVisible : Bool
deriving DecidableEq

/-- Modelled from the spec: the displacement offset of a composite pattern is
applied in the marker plane when the pose is recomputed (spec 4.2). -/
def withDisplacement (c : Center) (t : Transform) : Transform :=
  { t with translation := t.translation.add (t.applyToVec ⟨c.x, c.y, 0⟩) }

/-- Modelled from the spec: `Marker.cpp` is missing.  `DetectYourself`
determines whether this entity's id is present in the detection list; if
present it recomputes the internal `Transform` (applying the displacement
offset) and sets visibility true; if absent it sets visibility false and
leaves the previous `Transform` untouched (spec 4.2). -/
def Marker.DetectYourself (m : Marker) (markers : List ARMarkerInfo) : Marker :=
  match markers.find? (fun info => info.id == m.id) with
  | some info =>
      { m with transform := withDisplacement m.displacement info.pose,
               isVisible := true }
  | none => { m with isVisible := false }

def Marker.GetId (m : Marker) : Int :=
  m.id

def Marker.IsVisible (m : Marker) : Bool :=
  m.isVisible

/-- The location of the marker in the 3D world: the translation component of
the stored transform (spec 4.1, "Position"). -/
def Marker.GetLocation (m : Marker) : Vec3 :=
  m.transform.translation

/-- Modelled from the spec: `Marker.cpp` is missing.  `DistanceTo` is the
entry point for every distance function: the Euclidean distance between the
two translation components, in millimetres (spec 4.1). -/
noncomputable def Marker.DistanceTo (m : Marker) (trans : Transform) : ℝ :=
  Real.sqrt ((distSq m.transform.translation trans.translation : ℚ) : ℝ)

/-- Distance to another marker, delegating to `DistanceTo` (spec 4.2). -/
noncomputable def Marker.Distance (m other : Marker) : ℝ :=
  m.DistanceTo other.transform

/-- Distance from the camera: distance of this pose's translation to the
origin of the camera frame (spec 4.1). -/
noncomputable def Marker.DistanceToCamera (m : Marker) : ℝ :=
  m.DistanceTo cameraTransform

/-- State pattern enum, following `GameMode.h` verbatim. -/
inductive GameState : Type where
  | FindingWalls
  | SelectingDifficulty
  | Playing
  | GameLost
  | Error
  | MAX
deriving DecidableEq

/-- Wall indices, following `GameMode.h` verbatim. -/
inductive WallPositions : Type where
  | TopLeft
  | TopRight
  | BottomLeft
  | BottomRight
  | MAX
deriving DecidableEq

/-- Numeric value of a wall position, as fixed in `GameMode.h`. -/
def WallPositions.toNat : WallPositions → Nat
  | .TopLeft => 0
  | .TopRight => 1
  | .BottomLeft => 2
  | .BottomRight => 3
  | .MAX => 4

/-- Game-mode state, following the fields of `GameMode.h`: the board of four
wall markers, the shield and config markers, the config threshold, the life
ledger, the game state, timing data, the current objective and the score.
The `App` pointer is host glue and is not modelled. -/
structure GameMode where
  wallMarkers : Fin 4 → Marker
  shieldMarker : Marker
  configMarker : Marker
  configTime : ℚ
  currentLives : Int
  maxLives : Int
  gameState : GameState
  timeStamp : ℚ
  timeToCarryOnAction : ℚ
  nextObjective : Int
  score : Int

/-- Modelled from the spec: `GameMode.cpp` is missing.  Construction binds the
board markers, fixes `maxLives` from the life count, starts the ledger full,
and begins in `FindingWalls` (spec 3 and 4.3). -/
def GameMode.init (walls : Fin 4 → Marker) (shield config : Marker)
    (configTime : ℚ) (lives : Int) : GameMode :=
  { wallMarkers := walls
    shieldMarker := shield
    configMarker := config
    configTime := configTime
    currentLives := lives
    maxLives := lives
    gameState := GameState.FindingWalls
    timeStamp := 0
    timeToCarryOnAction := 0
    nextObjective := 0
    score := 0 }

def GameMode.SetLives (st : GameMode) (newLives : Int) : GameMode :=
  { st with currentLives := newLives }

def GameMode.GetMaxLives (st : GameMode) : Int :=
  st.maxLives

def GameMode.GetLives (st : GameMode) : Int :=
  st.currentLives

def GameMode.GetTargetWall (st : GameMode) : Int :=
  st.nextObjective

def GameMode.GetGameState (st : GameMode) : GameState :=
  st.gameState

/-- All four wall-corner markers are visible in the current frame. -/
def GameMode.AllWallsVisible (st : GameMode) : Bool :=
  (st.wallMarkers 0).isVisible && (st.wallMarkers 1).isVisible &&
    (st.wallMarkers 2).isVisible && (st.wallMarkers 3).isVisible

/-- Interpret the `int` objective as an index into the board of four walls. -/
def finOfInt (n : Int) : Fin 4 :=
  ⟨(n % 4).toNat, by omega⟩

/-- The wall marker the player must currently target. -/
def GameMode.TargetMarker (st : GameMode) : Marker :=
  st.wallMarkers (finOfInt st.nextObjective)

/-- Modelled from the spec: the tolerance (mm) within which the shield must be
of the target wall; a numeric threshold treated as configuration (spec 9). -/
def successTolerance : ℚ :=
  200

/-- Modelled from the spec: `GameMode.cpp` is missing.  The player is
successful when the shield marker's pose is within tolerance of the current
target wall marker, both being visible (spec 4.3, "Playing"). -/
def GameMode.IsPlayerSuccessful (st : GameMode) : Bool :=
  st.shieldMarker.isVisible && st.TargetMarker.isVisible &&
    decide (distSq st.shieldMarker.transform.translation
      st.TargetMarker.transform.translation ≤ successTolerance * successTolerance)

/-- Modelled from the spec: the difficulty tier read from the config marker's
squared distance to the camera; the tier thresholds are configuration to be
calibrated (spec 4.3 and 9), the result is the reaction-time budget. -/
def DifficultyFor (d2 : ℚ) : ℚ :=
  if d2 ≤ 250000 then 2 else if d2 ≤ 1000000 then 3 else 5

/-- Modelled from the spec: `GameMode.cpp` is missing.  In `FindingWalls`,
transition to `SelectingDifficulty` once all four wall markers are
simultaneously visible, recording the checkpoint; otherwise stay (spec 4.3). -/
def GameMode.FindWalls (st : GameMode) (elapsedTime : ℚ) : GameMode :=
  if st.AllWallsVisible then
    { st with gameState := GameState.SelectingDifficulty,
              timeStamp := elapsedTime }
  else st

/-- Modelled from the spec: `GameMode.cpp` is missing.  In
`SelectingDifficulty`, while the config marker is visible accumulate elapsed
time against the `timeStamp` checkpoint; once `configTime` seconds have
accumulated, commit the difficulty as `timeToCarryOnAction`, move to
`Playing`, record the entry time and the initial objective.  If the marker is
invisible, reset the checkpoint to now — no partial credit (spec 4.3). -/
def GameMode.SelectDifficulty (st : GameMode) (elapsedTime : ℚ) : GameMode :=
  if st.configMarker.isVisible then
    if st.configTime ≤ elapsedTime - st.timeStamp then
      { st with gameState := GameState.Playing,
                timeToCarryOnAction :=
                  DifficultyFor (distSq st.configMarker.transform.translation
                    cameraTransform.translation),
                timeStamp := elapsedTime,
                nextObjective := 0 }
    else st
  else { st with timeStamp := elapsedTime }

/-- Modelled from the spec: `GameMode.cpp` is missing.  In `Playing`: on
success before the reaction-time budget expires, increment the score, cycle
the objective (excluding immediate repeat) and reset the checkpoint; on
timeout without success, decrement `currentLives`, transition to `GameLost`
when the lives reach 0, otherwise reset the checkpoint (spec 4.3). -/
def GameMode.Play (st : GameMode) (elapsedTime : ℚ) : GameMode :=
  if st.IsPlayerSuccessful ∧ elapsedTime - st.timeStamp < st.timeToCarryOnAction then
    { st with score := st.score + 1,
              nextObjective := (st.nextObjective + 1) % 4,
              timeStamp := elapsedTime }
  else if st.timeToCarryOnAction ≤ elapsedTime - st.timeStamp then
    if st.currentLives - 1 = 0 then
      { st with currentLives := st.currentLives - 1,
                gameState := GameState.GameLost }
    else
      { st with currentLives := st.currentLives - 1,
                timeStamp := elapsedTime }
  else st

/-- Modelled from the spec: `GameMode.cpp` is missing.  `Update(elapsedTime)`
is the single driving entry point, dispatching on the current state;
`GameLost` and `Error` are terminal no-ops (spec 4.3). -/
def GameMode.Update (st : GameMode) (elapsedTime : ℚ) : GameMode :=
  if st.gameState = GameState.FindingWalls then st.FindWalls elapsedTime
  else if st.gameState = GameState.SelectingDifficulty then st.SelectDifficulty elapsedTime
  else if st.gameState = GameState.Playing then st.Play elapsedTime
  else st

/-- Once per frame the external caller feeds fresh detection results into each
marker entity before invoking `Update` (spec 2, control flow). -/
def GameMode.ApplyDetections (st : GameMode) (dets : List ARMarkerInfo) : GameMode :=
  { st with wallMarkers := fun i => (st.wallMarkers i).DetectYourself dets,
            shieldMarker := st.shieldMarker.DetectYourself dets,
            configMarker := st.configMarker.DetectYourself dets }

/-- One frame of host input: the detection list and the cumulative elapsed
time passed to `Update`. -/
structure Frame where
  detections : List ARMarkerInfo
  elapsedTime : ℚ

/-- One full frame of the driving loop: detection update, then `Update`. -/
def GameMode.Step (st : GameMode) (f : Frame) : GameMode :=
  (st.ApplyDetections f.detections).Update f.elapsedTime

/-- Run a sequence of frames through the driving loop. -/
def GameMode.RunTrace (st : GameMode) (fs : List Frame) : GameMode :=
  List.foldl GameMode.Step st fs

/-- The states reachable through the public per-frame interface: construction,
detection updates, and `Update` calls, for a host that starts the match with
at least one life. -/
inductive Reachable : GameMode → Prop where
  | init : ∀ (walls : Fin 4 → Marker) (shield config : Marker)
      (configTime : ℚ) (lives : Int), 1 ≤ lives →
      Reachable (GameMode.init walls shield config configTime lives)
  | detect : ∀ st dets, Reachable st → Reachable (st.ApplyDetections dets)
  | update : ∀ st t, Reachable st → Reachable (st.Update t)

/-! Concrete sample data used by the witnesses. -/

/-- An identity-rotation pose whose translation is (0, 0, 500) mm. -/
def pose500 : Transform :=
  { r0 := ⟨1, 0, 0⟩, r1 := ⟨0, 1, 0⟩, r2 := ⟨0, 0, 1⟩,
    translation := ⟨0, 0, 500⟩ }

/-- A sample marker with the given id, pose (0, 0, 500) and width 120 mm. -/
def sampleMarker (n : Int) : Marker :=
  { transform := pose500, displacement := ⟨0, 0⟩, id := n, size := 120,
    isVisible := true }

/-- A detection list that contains ids 1 and 2 but omits id 5. -/
def sampleDets : List ARMarkerInfo :=
  [⟨1, cameraTransform⟩, ⟨2, pose500⟩]

/-- Whether a detection list contains this marker's id. -/
def visibleIn (dets : List ARMarkerInfo) (m : Marker) : Bool :=
  (dets.find? (fun info => info.id == m.id)).isSome

/-- The translation of a pose, seen as a point of Euclidean 3-space. -/
noncomputable def Vec3.toE3 (v : Vec3) : EuclideanSpace ℝ (Fin 3) :=
  (WithLp.equiv 2 (Fin 3 → ℝ)).symm ![(v.x : ℝ), (v.y : ℝ), (v.z : ℝ)]

/-- The state-machine invariant maintained by the per-frame interface:
bounded lives, at least one life in every non-terminal state, and an
objective that indexes the board of four walls. -/
def LivesInv (st : GameMode) : Prop :=
  0 ≤ st.currentLives ∧ st.currentLives ≤ st.maxLives ∧
    (st.gameState ≠ GameState.GameLost → 1 ≤ st.currentLives) ∧
    0 ≤ st.nextObjective ∧ st.nextObjective < 4

/-- A board of sample wall markers with ids 1, 2, 3, 4. -/
def sampleWalls : Fin 4 → Marker :=
  fun i => sampleMarker (i.val + 1)

/-- A freshly constructed sample match: walls 1–4, shield 5, config 6,
a 5-second config threshold and 3 lives. -/
def sampleGame : GameMode :=
  GameMode.init sampleWalls (sampleMarker 5) (sampleMarker 6) 5 3

/-- The sample match while selecting difficulty, with the config marker
currently invisible and the checkpoint at second 1. -/
def sampleSelecting : GameMode :=
  { sampleGame with gameState := GameState.SelectingDifficulty,
                    configMarker := { sampleMarker 6 with isVisible := false },
                    timeStamp := 1 }

/-- The sample match during play, with a 2-second reaction budget. -/
def samplePlaying : GameMode :=
  { sampleGame with gameState := GameState.Playing, timeStamp := 0,
                    timeToCarryOnAction := 2 }

/-- The sample match during play, down to the last life. -/
def sampleDying : GameMode :=
  { samplePlaying with currentLives := 1 }

/-- The sample match after the game has been lost. -/
def sampleLost : GameMode :=
  { sampleGame with gameState := GameState.GameLost, currentLives := 0 }

/-! Marker-level lemmas. -/

theorem detect_id (m : Marker) (dets : List ARMarkerInfo) :
    (m.DetectYourself dets).id = m.id := by
  unfold Marker.DetectYourself
  cases dets.find? (fun info => info.id == m.id) <;> rfl

theorem detect_isVisible (m : Marker) (dets : List ARMarkerInfo) :
    (m.DetectYourself dets).isVisible = visibleIn dets m := by
  unfold Marker.DetectYourself visibleIn
  cases dets.find? (fun info => info.id == m.id) <;> rfl

theorem visibleIn_congr (dets : List ARMarkerInfo) (m n : Marker)
    (h : m.id = n.id) : visibleIn dets m = visibleIn dets n := by
  unfold visibleIn
  rw [h]

/-- C7: if the marker's id is absent from the detection list, the detection
update reports the marker invisible and keeps the stored transform (hence the
location) exactly as it was — stale-but-available, never reset. -/
theorem detect_absent_keeps_pose (m : Marker) (dets : List ARMarkerInfo)
    (habs : ∀ info ∈ dets, info.id ≠ m.id) :
    (m.DetectYourself dets).IsVisible = false ∧
    (m.DetectYourself dets).transform = m.transform ∧
    (m.DetectYourself dets).GetLocation = m.GetLocation := by
  have hfind : dets.find? (fun info => info.id == m.id) = none := by
    apply List.find?_eq_none.mpr
    intro info hinfo
    simp [habs info hinfo]
  simp [Marker.DetectYourself, hfind, Marker.IsVisible, Marker.GetLocation]

theorem detect_absent_keeps_pose_witness :
    ((sampleMarker 5).DetectYourself sampleDets).IsVisible = false ∧
    ((sampleMarker 5).DetectYourself sampleDets).transform = (sampleMarker 5).transform ∧
    ((sampleMarker 5).DetectYourself sampleDets).GetLocation = (sampleMarker 5).GetLocation :=
  detect_absent_keeps_pose (sampleMarker 5) sampleDets (by decide)

theorem dist_toE3 (u v : Vec3) :
    dist u.toE3 v.toE3 = Real.sqrt ((distSq u v : ℚ) : ℝ) := by
  rw [EuclideanSpace.dist_eq]
  congr 1
  simp only [Vec3.toE3, WithLp.equiv_symm_pi_apply, Fin.sum_univ_three,
    Matrix.cons_val_zero, Matrix.cons_val_one, Matrix.head_cons,
    Matrix.cons_val_two, Matrix.tail_cons, Real.dist_eq, sq_abs]
  push_cast [distSq, Vec3.sub, Vec3.normSq, Vec3.dot]
  ring

theorem toE3_zero : Vec3.toE3 ⟨0, 0, 0⟩ = 0 := by
  funext i
  fin_cases i <;>
    simp [Vec3.toE3, WithLp.equiv_symm_pi_apply]

theorem distSq_comm (u v : Vec3) : distSq u v = distSq v u := by
  simp only [distSq, Vec3.sub, Vec3.normSq, Vec3.dot]
  ring

/-- C8: `DistanceToCamera` is the Euclidean distance between the stored
translation and the origin of the camera frame; for the sample marker at
translation (0, 0, 500) mm it returns 500; and `Distance` is the Euclidean
distance between the two stored translations. -/
theorem distance_is_euclidean :
    (∀ m : Marker,
      m.DistanceToCamera = dist m.GetLocation.toE3 (0 : EuclideanSpace ℝ (Fin 3))) ∧
    (sampleMarker 5).DistanceToCamera = 500 ∧
    (∀ a b : Marker, a.Distance b = dist a.GetLocation.toE3 b.GetLocation.toE3) := by
  have hcam : ∀ m : Marker,
      m.DistanceToCamera = dist m.GetLocation.toE3 (0 : EuclideanSpace ℝ (Fin 3)) := by
    intro m
    rw [← toE3_zero, dist_toE3]
    rfl
  refine ⟨hcam, ?_, ?_⟩
  · have h2 : ((distSq (Vec3.mk 0 0 500) ⟨0, 0, 0⟩ : ℚ) : ℝ) = 500 ^ 2 := by
      norm_num [distSq, Vec3.sub, Vec3.normSq, Vec3.dot]
    have : (sampleMarker 5).DistanceToCamera =
        Real.sqrt ((distSq ⟨0, 0, 500⟩ ⟨0, 0, 0⟩ : ℚ) : ℝ) := rfl
    rw [this, h2, Real.sqrt_sq (by norm_num)]
  · intro a b
    rw [dist_toE3]
    rfl

/-- C10: marker distance is symmetric, since both directions reduce to the
Euclidean distance between the two stored translations via `DistanceTo`. -/
theorem distance_symm (a b : Marker) : a.Distance b = b.Distance a := by
  unfold Marker.Distance Marker.DistanceTo
  rw [distSq_comm]

/-! Game-mode invariant machinery. -/

theorem livesInv_init (walls : Fin 4 → Marker) (shield config : Marker)
    (configTime : ℚ) (lives : Int) (h : 1 ≤ lives) :
    LivesInv (GameMode.init walls shield config configTime lives) := by
  refine ⟨?_, le_refl _, fun _ => h, ?_, ?_⟩
  · show (0 : Int) ≤ lives
    omega
  · show (0 : Int) ≤ 0
    decide
  · show (0 : Int) < 4
    decide

theorem livesInv_detect (st : GameMode) (dets : List ARMarkerInfo)
    (h : LivesInv st) : LivesInv (st.ApplyDetections dets) :=
  h

theorem livesInv_findWalls (st : GameMode) (t : ℚ) (h : LivesInv st)
    (hg : st.gameState = GameState.FindingWalls) : LivesInv (st.FindWalls t) := by
  obtain ⟨h0, h1, h2, h3, h4⟩ := h
  have hlive : 1 ≤ st.currentLives := h2 (by rw [hg]; decide)
  unfold GameMode.FindWalls
  split_ifs with hv
  · exact ⟨h0, h1, fun _ => hlive, h3, h4⟩
  · exact ⟨h0, h1, h2, h3, h4⟩

theorem livesInv_selectDifficulty (st : GameMode) (t : ℚ) (h : LivesInv st)
    (hg : st.gameState = GameState.SelectingDifficulty) :
    LivesInv (st.SelectDifficulty t) := by
  obtain ⟨h0, h1, h2, h3, h4⟩ := h
  have hlive : 1 ≤ st.currentLives := h2 (by rw [hg]; decide)
  unfold GameMode.SelectDifficulty
  split_ifs with hv hthr
  · refine ⟨h0, h1, fun _ => hlive, ?_, ?_⟩
    · show (0 : Int) ≤ 0
      decide
    · show (0 : Int) < 4
      decide
  · exact ⟨h0, h1, h2, h3, h4⟩
  · exact ⟨h0, h1, h2, h3, h4⟩

theorem livesInv_play (st : GameMode) (t : ℚ) (h : LivesInv st)
    (hg : st.gameState = GameState.Playing) : LivesInv (st.Play t) := by
  obtain ⟨h0, h1, h2, h3, h4⟩ := h
  have hlive : 1 ≤ st.currentLives := h2 (by rw [hg]; decide)
  unfold GameMode.Play
  split_ifs with hs ht hz
  · refine ⟨h0, h1, fun _ => hlive, ?_, ?_⟩
    · show (0 : Int) ≤ (st.nextObjective + 1) % 4
      omega
    · show (st.nextObjective + 1) % 4 < (4 : Int)
      omega
  · refine ⟨?_, ?_, ?_, h3, h4⟩
    · show (0 : Int) ≤ st.currentLives - 1
      omega
    · show st.currentLives - 1 ≤ st.maxLives
      omega
    · intro hc
      exact absurd rfl hc
  · refine ⟨?_, ?_, ?_, h3, h4⟩
    · show (0 : Int) ≤ st.currentLives - 1
      omega
    · show st.currentLives - 1 ≤ st.maxLives
      omega
    · intro _
      show (1 : Int) ≤ st.currentLives - 1
      omega
  · exact ⟨h0, h1, h2, h3, h4⟩

theorem livesInv_update (st : GameMode) (t : ℚ) (h : LivesInv st) :
    LivesInv (st.Update t) := by
  unfold GameMode.Update
  split_ifs with hg1 hg2 hg3
  · exact livesInv_findWalls st t h hg1
  · exact livesInv_selectDifficulty st t h hg2
  · exact livesInv_play st t h hg3
  · exact h

theorem reachable_livesInv (st : GameMode) (h : Reachable st) : LivesInv st := by
  induction h with
  | init walls shield config configTime lives hl =>
      exact livesInv_init walls shield config configTime lives hl
  | detect st dets _ ih => exact livesInv_detect st dets ih
  | update st t _ ih => exact livesInv_update st t ih

/-- C9: the getters read exactly the stored field, and `SetLives` writes
`currentLives` and leaves every other field of the game mode — bounds, state,
score, objective, timing and all markers — unchanged. -/
theorem accessors_frame (st : GameMode) (n : Int) :
    st.GetMaxLives = st.maxLives ∧ st.GetLives = st.currentLives ∧
    st.GetTargetWall = st.nextObjective ∧ st.GetGameState = st.gameState ∧
    (st.SetLives n).currentLives = n ∧
    (st.SetLives n).maxLives = st.maxLives ∧
    (st.SetLives n).gameState = st.gameState ∧
    (st.SetLives n).score = st.score ∧
    (st.SetLives n).nextObjective = st.nextObjective ∧
    (st.SetLives n).timeStamp = st.timeStamp ∧
    (st.SetLives n).timeToCarryOnAction = st.timeToCarryOnAction ∧
    (st.SetLives n).configTime = st.configTime ∧
    (st.SetLives n).wallMarkers = st.wallMarkers ∧
    (st.SetLives n).shieldMarker = st.shieldMarker ∧
    (st.SetLives n).configMarker = st.configMarker :=
  ⟨rfl, rfl, rfl, rfl, rfl, rfl, rfl, rfl, rfl, rfl, rfl, rfl, rfl, rfl, rfl⟩

/-! State-machine step lemmas. -/

theorem update_wallMarkers (st : GameMode) (t : ℚ) :
    (st.Update t).wallMarkers = st.wallMarkers := by
  unfold GameMode.Update GameMode.FindWalls GameMode.SelectDifficulty GameMode.Play
  split_ifs <;> rfl

theorem step_wall_id (st : GameMode) (f : Frame) (i : Fin 4) :
    ((st.Step f).wallMarkers i).id = (st.wallMarkers i).id := by
  unfold GameMode.Step
  rw [update_wallMarkers]
  show ((st.wallMarkers i).DetectYourself f.detections).id = (st.wallMarkers i).id
  exact detect_id _ _

theorem allWallsVisible_true (st : GameMode) (h : st.AllWallsVisible = true) :
    ∀ i : Fin 4, (st.wallMarkers i).isVisible = true := by
  intro i
  unfold GameMode.AllWallsVisible at h
  simp only [Bool.and_eq_true] at h
  obtain ⟨⟨⟨h0, h1⟩, h2⟩, h3⟩ := h
  fin_cases i
  · exact h0
  · exact h1
  · exact h2
  · exact h3

theorem step_stays_findingWalls (st : GameMode) (f : Frame)
    (hg : st.gameState = GameState.FindingWalls)
    (hmiss : ∃ i : Fin 4, visibleIn f.detections (st.wallMarkers i) = false) :
    (st.Step f).gameState = GameState.FindingWalls := by
  have hnv : (st.ApplyDetections f.detections).AllWallsVisible = false := by
    obtain ⟨i, hi⟩ := hmiss
    cases hcase : (st.ApplyDetections f.detections).AllWallsVisible
    · rfl
    · have hvis := allWallsVisible_true _ hcase i
      have h2 : ((st.wallMarkers i).DetectYourself f.detections).isVisible = true := hvis
      rw [detect_isVisible] at h2
      exact absurd (hi.symm.trans h2) (by decide)
  have hg2 : (st.ApplyDetections f.detections).gameState = GameState.FindingWalls := hg
  show ((st.ApplyDetections f.detections).Update f.elapsedTime).gameState =
    GameState.FindingWalls
  simp [GameMode.Update, hg2, GameMode.FindWalls, hnv]

theorem update_gameState_cases (st : GameMode) (t : ℚ) :
    (st.Update t).gameState = st.gameState ∨
    (st.gameState = GameState.FindingWalls ∧
      (st.Update t).gameState = GameState.SelectingDifficulty) ∨
    (st.gameState = GameState.SelectingDifficulty ∧
      (st.Update t).gameState = GameState.Playing) ∨
    (st.gameState = GameState.Playing ∧
      (st.Update t).gameState = GameState.GameLost) := by
  unfold GameMode.Update GameMode.FindWalls GameMode.SelectDifficulty GameMode.Play
  split_ifs with hg1 hv hg2 hcv hthr hg3 hs ht hz
  · exact Or.inr (Or.inl ⟨hg1, rfl⟩)
  · exact Or.inl rfl
  · exact Or.inr (Or.inr (Or.inl ⟨hg2, rfl⟩))
  · exact Or.inl rfl
  · exact Or.inl rfl
  · exact Or.inl rfl
  · exact Or.inr (Or.inr (Or.inr ⟨hg3, rfl⟩))
  · exact Or.inl rfl
  · exact Or.inl rfl
  · exact Or.inl rfl

theorem select_next (st : GameMode) (t : ℚ)
    (hg : st.gameState = GameState.SelectingDifficulty) :
    (st.Update t).gameState = GameState.SelectingDifficulty ∨
    (st.Update t).gameState = GameState.Playing := by
  rcases update_gameState_cases st t with h | ⟨h1, _⟩ | ⟨_, h2⟩ | ⟨h1, _⟩
  · exact Or.inl (h.trans hg)
  · exact absurd h1 (by rw [hg]; decide)
  · exact Or.inr h2
  · exact absurd h1 (by rw [hg]; decide)

theorem step_gameLost (st : GameMode) (f : Frame)
    (hg : st.gameState = GameState.GameLost) :
    (st.Step f).score = st.score ∧
    (st.Step f).currentLives = st.currentLives ∧
    (st.Step f).gameState = GameState.GameLost := by
  have hg2 : (st.ApplyDetections f.detections).gameState = GameState.GameLost := hg
  have hu : st.Step f = st.ApplyDetections f.detections := by
    show (st.ApplyDetections f.detections).Update f.elapsedTime = _
    simp [GameMode.Update, hg2]
  rw [hu]
  exact ⟨rfl, rfl, hg⟩

theorem runTrace_gameLost (st : GameMode) (fs : List Frame)
    (hg : st.gameState = GameState.GameLost) :
    (st.RunTrace fs).score = st.score ∧
    (st.RunTrace fs).currentLives = st.currentLives ∧
    (st.RunTrace fs).gameState = GameState.GameLost := by
  induction fs generalizing st with
  | nil => exact ⟨rfl, rfl, hg⟩
  | cons f fs ih =>
      have h1 := step_gameLost st f hg
      have h2 := ih (st.Step f) h1.2.2
      exact ⟨h2.1.trans h1.1, h2.2.1.trans h1.2.1, h2.2.2⟩

/-! Claim theorems for the state machine. -/

/-- C1: along any sequence of frames starting from a state in `FindingWalls`,
as long as every frame leaves at least one wall-corner marker undetected
(fewer than four simultaneously visible), the game state stays
`FindingWalls`, whatever the elapsed times. -/
theorem findingWalls_stable (st : GameMode) (fs : List Frame)
    (hg : st.gameState = GameState.FindingWalls)
    (hmiss : ∀ f ∈ fs, ∃ i : Fin 4,
      visibleIn f.detections (st.wallMarkers i) = false) :
    (st.RunTrace fs).gameState = GameState.FindingWalls := by
  induction fs generalizing st with
  | nil => exact hg
  | cons f fs ih =>
      have h1 := step_stays_findingWalls st f hg (hmiss f (by simp))
      show ((st.Step f).RunTrace fs).gameState = GameState.FindingWalls
      apply ih (st.Step f) h1
      intro f2 hf2
      obtain ⟨i, hi⟩ := hmiss f2 (by simp [hf2])
      refine ⟨i, ?_⟩
      rw [visibleIn_congr f2.detections _ _ (step_wall_id st f i)]
      exact hi

theorem findingWalls_stable_witness :
    (sampleGame.RunTrace [⟨sampleDets, 1⟩, ⟨[], 2⟩]).gameState =
      GameState.FindingWalls :=
  findingWalls_stable sampleGame [⟨sampleDets, 1⟩, ⟨[], 2⟩] rfl (by decide)

/-- C2: from `FindingWalls` with all four wall markers visible, the very next
`Update` moves to `SelectingDifficulty`; every `Update` call performs at most
one transition along the chain of states; and after the transition a further
frame can only keep `SelectingDifficulty` or move on to `Playing`, never
re-trigger the calibration transition. -/
theorem calibration_transition_once :
    (∀ (st : GameMode) (t : ℚ), st.gameState = GameState.FindingWalls →
      st.AllWallsVisible = true →
      (st.Update t).gameState = GameState.SelectingDifficulty) ∧
    (∀ (st : GameMode) (t : ℚ),
      (st.Update t).gameState = st.gameState ∨
      (st.gameState = GameState.FindingWalls ∧
        (st.Update t).gameState = GameState.SelectingDifficulty) ∨
      (st.gameState = GameState.SelectingDifficulty ∧
        (st.Update t).gameState = GameState.Playing) ∨
      (st.gameState = GameState.Playing ∧
        (st.Update t).gameState = GameState.GameLost)) ∧
    (∀ (st : GameMode) (t t2 : ℚ) (dets : List ARMarkerInfo),
      st.gameState = GameState.FindingWalls → st.AllWallsVisible = true →
      (((st.Update t).ApplyDetections dets).Update t2).gameState =
        GameState.SelectingDifficulty ∨
      (((st.Update t).ApplyDetections dets).Update t2).gameState =
        GameState.Playing) := by
  have hfirst : ∀ (st : GameMode) (t : ℚ), st.gameState = GameState.FindingWalls →
      st.AllWallsVisible = true →
      (st.Update t).gameState = GameState.SelectingDifficulty := by
    intro st t hg hv
    simp [GameMode.Update, hg, GameMode.FindWalls, hv]
  refine ⟨hfirst, update_gameState_cases, ?_⟩
  intro st t t2 dets hg hv
  have h1 := hfirst st t hg hv
  have h2 : ((st.Update t).ApplyDetections dets).gameState =
      GameState.SelectingDifficulty := h1
  exact select_next _ t2 h2

theorem calibration_transition_once_witness :
    (sampleGame.Update 1).gameState = GameState.SelectingDifficulty ∧
    ((sampleGame.Update 1).gameState = sampleGame.gameState ∨
      (sampleGame.gameState = GameState.FindingWalls ∧
        (sampleGame.Update 1).gameState = GameState.SelectingDifficulty) ∨
      (sampleGame.gameState = GameState.SelectingDifficulty ∧
        (sampleGame.Update 1).gameState = GameState.Playing) ∨
      (sampleGame.gameState = GameState.Playing ∧
        (sampleGame.Update 1).gameState = GameState.GameLost)) ∧
    ((((sampleGame.Update 1).ApplyDetections sampleDets).Update 2).gameState =
        GameState.SelectingDifficulty ∨
      (((sampleGame.Update 1).ApplyDetections sampleDets).Update 2).gameState =
        GameState.Playing) :=
  ⟨calibration_transition_once.1 sampleGame 1 rfl (by decide),
   calibration_transition_once.2.1 sampleGame 1,
   calibration_transition_once.2.2 sampleGame 1 2 sampleDets rfl (by decide)⟩

/-- C3: in `SelectingDifficulty`, if the config marker is invisible before
`configTime` seconds of continuous visibility have accumulated, the state
stays `SelectingDifficulty` and the checkpoint is moved to the current time,
so the accumulated visibility time is reset to zero — no transition, no
partial credit. -/
theorem config_flicker_resets (st : GameMode) (t : ℚ)
    (hg : st.gameState = GameState.SelectingDifficulty)
    (hinv : st.configMarker.isVisible = false)
    (hbefore : t - st.timeStamp < st.configTime) :
    (st.Update t).gameState = GameState.SelectingDifficulty ∧
    (st.Update t).timeStamp = t ∧ t - (st.Update t).timeStamp = 0 := by
  have hu : st.Update t = { st with timeStamp := t } := by
    simp [GameMode.Update, hg, GameMode.SelectDifficulty, hinv]
  rw [hu]
  exact ⟨hg, rfl, by ring⟩

theorem config_flicker_resets_witness :
    (sampleSelecting.Update 2).gameState = GameState.SelectingDifficulty ∧
    (sampleSelecting.Update 2).timeStamp = 2 ∧
    (2 : ℚ) - (sampleSelecting.Update 2).timeStamp = 0 :=
  config_flicker_resets sampleSelecting 2 rfl rfl
    (by norm_num [sampleSelecting, sampleGame, GameMode.init])

/-- C4 fails as stated: `SetLives` writes the stored field with no clamping,
so the single operation `SetLives 5` on a freshly constructed match with
`maxLives = 3` leaves `currentLives = 5 > maxLives`, violating the claimed
bound right after one of the operations the claim quantifies over. -/
theorem lives_bound_counterexample :
    (sampleGame.SetLives 5).GetLives = 5 ∧
    (sampleGame.SetLives 5).GetMaxLives = 3 ∧
    ¬ ((sampleGame.SetLives 5).currentLives ≤ (sampleGame.SetLives 5).maxLives) := by
  decide

/-- C4 (amended): for every state reachable through construction (with a
positive life count), detection updates and `Update` calls,
`0 ≤ currentLives ≤ maxLives`; while `Playing`, `Update` never increases
`currentLives`; and `SetLives` preserves the bounds exactly when its argument
lies within `[0, maxLives]`. -/
theorem lives_invariant_amended :
    (∀ st : GameMode, Reachable st →
      0 ≤ st.currentLives ∧ st.currentLives ≤ st.maxLives) ∧
    (∀ (st : GameMode) (t : ℚ), st.gameState = GameState.Playing →
      (st.Update t).currentLives ≤ st.currentLives) ∧
    (∀ (st : GameMode) (n : Int), 0 ≤ n → n ≤ st.maxLives →
      0 ≤ (st.SetLives n).currentLives ∧
        (st.SetLives n).currentLives ≤ (st.SetLives n).maxLives) := by
  refine ⟨?_, ?_, ?_⟩
  · intro st h
    obtain ⟨h0, h1, -, -, -⟩ := reachable_livesInv st h
    exact ⟨h0, h1⟩
  · intro st t hg
    have hu : st.Update t = st.Play t := by simp [GameMode.Update, hg]
    rw [hu]
    unfold GameMode.Play
    split_ifs
    · exact le_refl _
    · show st.currentLives - 1 ≤ st.currentLives
      omega
    · show st.currentLives - 1 ≤ st.currentLives
      omega
    · exact le_refl _
  · intro st n h0 h1
    exact ⟨h0, h1⟩

theorem lives_invariant_amended_witness :
    (0 ≤ sampleGame.currentLives ∧ sampleGame.currentLives ≤ sampleGame.maxLives) ∧
    (samplePlaying.Update 1).currentLives ≤ samplePlaying.currentLives ∧
    (0 ≤ (sampleGame.SetLives 2).currentLives ∧
      (sampleGame.SetLives 2).currentLives ≤ (sampleGame.SetLives 2).maxLives) :=
  ⟨lives_invariant_amended.1 sampleGame
      (Reachable.init sampleWalls (sampleMarker 5) (sampleMarker 6) 5 3 (by decide)),
   lives_invariant_amended.2.1 samplePlaying 1 rfl,
   lives_invariant_amended.2.2 sampleGame 2 (by decide) (by decide)⟩

/-- C5: the `Update` call during which `currentLives` reaches 0 — a timeout
in `Playing` with a single life left and no success — sets the state to
`GameLost`; and from `GameLost` no subsequent sequence of frames changes
`score` or `currentLives`, the state staying `GameLost` (terminal no-op). -/
theorem game_lost_terminal :
    (∀ (st : GameMode) (t : ℚ), st.gameState = GameState.Playing →
      st.currentLives = 1 →
      ¬ (st.IsPlayerSuccessful ∧ t - st.timeStamp < st.timeToCarryOnAction) →
      st.timeToCarryOnAction ≤ t - st.timeStamp →
      (st.Update t).gameState = GameState.GameLost ∧
        (st.Update t).currentLives = 0) ∧
    (∀ (st : GameMode) (fs : List Frame), st.gameState = GameState.GameLost →
      (st.RunTrace fs).score = st.score ∧
      (st.RunTrace fs).currentLives = st.currentLives ∧
      (st.RunTrace fs).gameState = GameState.GameLost) := by
  constructor
  · intro st t hg hl hns hto
    have hu : st.Update t =
        { st with currentLives := st.currentLives - 1, gameState := GameState.GameLost } := by
      simp [GameMode.Update, hg, GameMode.Play, hns, hto, hl]
    rw [hu]
    refine ⟨rfl, ?_⟩
    show st.currentLives - 1 = 0
    omega
  · intro st fs hg
    exact runTrace_gameLost st fs hg

theorem game_lost_terminal_witness :
    ((sampleDying.Update 5).gameState = GameState.GameLost ∧
      (sampleDying.Update 5).currentLives = 0) ∧
    ((sampleLost.RunTrace [⟨sampleDets, 6⟩]).score = sampleLost.score ∧
      (sampleLost.RunTrace [⟨sampleDets, 6⟩]).currentLives = sampleLost.currentLives ∧
      (sampleLost.RunTrace [⟨sampleDets, 6⟩]).gameState = GameState.GameLost) :=
  ⟨game_lost_terminal.1 sampleDying 5 rfl rfl
      (by norm_num [sampleDying, samplePlaying, sampleGame, GameMode.init])
      (by norm_num [sampleDying, samplePlaying, sampleGame, GameMode.init]),
   game_lost_terminal.2 sampleLost [⟨sampleDets, 6⟩] rfl⟩

/-- C6: in every reachable state that is `Playing`, `GetTargetWall` returns a
value in {0, 1, 2, 3}, so `nextObjective` is a valid index into the board of
four wall markers. -/
theorem target_wall_in_range (st : GameMode) (h : Reachable st)
    (hg : st.gameState = GameState.Playing) :
    st.GetTargetWall = 0 ∨ st.GetTargetWall = 1 ∨
    st.GetTargetWall = 2 ∨ st.GetTargetWall = 3 := by
  obtain ⟨-, -, -, h3, h4⟩ := reachable_livesInv st h
  unfold GameMode.GetTargetWall
  omega

theorem sampleGame_update1 :
    sampleGame.Update 1 =
      { sampleGame with gameState := GameState.SelectingDifficulty, timeStamp := 1 } := by
  simp [sampleGame, GameMode.init, GameMode.Update, GameMode.FindWalls,
    GameMode.AllWallsVisible, sampleWalls, sampleMarker]

theorem sampleGame_playing :
    ((sampleGame.Update 1).Update 6).gameState = GameState.Playing := by
  rw [sampleGame_update1]
  norm_num [GameMode.Update, GameMode.SelectDifficulty, sampleGame, GameMode.init,
    sampleMarker]
  decide

theorem target_wall_in_range_witness :
    ((sampleGame.Update 1).Update 6).GetTargetWall = 0 ∨
    ((sampleGame.Update 1).Update 6).GetTargetWall = 1 ∨
    ((sampleGame.Update 1).Update 6).GetTargetWall = 2 ∨
    ((sampleGame.Update 1).Update 6).GetTargetWall = 3 :=
  target_wall_in_range ((sampleGame.Update 1).Update 6)
    (Reachable.update _ 6 (Reachable.update _ 1
      (Reachable.init sampleWalls (sampleMarker 5) (sampleMarker 6) 5 3 (by decide))))
    sampleGame_playing

end ArProyect
